import Mathlib

/-!
Shallow embedding of `src/swarm-health-monitor.py` (Swarm Health Monitor).

Modelling conventions:
* Python integers are modelled as `Int`.
* `datetime` instants are modelled as rationals measured in days, so that
  `timedelta(days=d)` becomes addition by `d` and `datetime.now()` is an
  explicit `now : ℚ` parameter.
* The persisted state dictionary `state["torrents"]` is modelled as an
  insertion-ordered association list, with Python-dict update semantics
  (assignment to an existing key replaces it in place, a new key is appended).
* Network effects are made explicit.  The raw HTTP transport underneath the
  `QBittorrentAPI` methods is a `HttpResult` argument, whose `exn` constructor
  stands for a raised `requests.exceptions.RequestException` (connection
  error, timeout, `raise_for_status` failure or response-decoding failure).
  Inside a check cycle, where the session is already authenticated, the
  gateway is abstracted by a success oracle `ok : Ev → Bool` together with an
  explicit trace of the calls issued.
* `format_size` (floating-point display formatting, used only to build a log
  string) is not modelled; the `size` entry of the per-torrent info dict is
  display-only and is omitted from `TorrentInfo`.
-/

namespace SHM

/-- Configuration values read from environment variables
(`CRITICAL_SEEDERS`, `RARE_SEEDERS`, `LOW_SEEDERS`, `CHECK_INTERVAL_DAYS`,
`RESUME_CRITICAL`, `RESUME_RARE`, `SET_PRIORITIES`). -/
structure Config where
  CRITICAL_SEEDERS : Int
  RARE_SEEDERS : Int
  LOW_SEEDERS : Int
  CHECK_INTERVAL_DAYS : ℚ
  RESUME_CRITICAL : Bool
  RESUME_RARE : Bool
  SET_PRIORITIES : Bool
deriving DecidableEq

/-- The source defaults: thresholds 1/2/5, interval 30 days,
`RESUME_CRITICAL=True`, `RESUME_RARE=False`, `SET_PRIORITIES=True`. -/
def defaultConfig : Config :=
  { CRITICAL_SEEDERS := 1, RARE_SEEDERS := 2, LOW_SEEDERS := 5
    CHECK_INTERVAL_DAYS := 30
    RESUME_CRITICAL := true, RESUME_RARE := false, SET_PRIORITIES := true }

/-- The defaults with every action toggle switched on
(`RESUME_RARE` included). -/
def allOnConfig : Config :=
  { defaultConfig with RESUME_RARE := true }

/-- `classify_torrent` (source lines 338-347): threshold ladder on the
seeder count. -/
def classify_torrent (cfg : Config) (seeder_count : Int) : String :=
  if seeder_count ≤ cfg.CRITICAL_SEEDERS then "CRITICAL"
  else if seeder_count ≤ cfg.RARE_SEEDERS then "RARE"
  else if seeder_count ≤ cfg.LOW_SEEDERS then "LOW"
  else "HEALTHY"

/-- A torrent record as returned by `/api/v2/torrents/info`.  The source
reads the fields `hash`, `name`, `state`, `num_complete` (tracker-reported
total seeders), `num_seeds` (connected seeders) and `size`; `size` feeds only
the unmodelled display formatting and is omitted. -/
structure Torrent where
  hash : String
  name : String
  state : String
  num_complete : Int
  num_seeds : Int
deriving DecidableEq

/-- A per-tracker record as returned by `/api/v2/torrents/trackers`; the
source reads only `num_seeds` (with `.get` default `0`, modelled by the field
always being present). -/
structure TrackerStat where
  num_seeds : Int
deriving DecidableEq

/-- The self-contribution adjustment in `get_seeder_count` (line 323):
`1 if torrent.get('state') in ['uploading', 'stalledUP', 'forcedUP'] else 0`. -/
def our_contribution (t : Torrent) : Int :=
  if t.state ∈ ["uploading", "stalledUP", "forcedUP"] then 1 else 0

/-- The `max_seeds` accumulation loop of `get_seeder_count`
(lines 331-334): start at 0, replace whenever a tracker reports strictly
more. -/
def max_seeds_loop (trackers : List TrackerStat) : Int :=
  trackers.foldl (fun m tr => if tr.num_seeds > m then tr.num_seeds else m) 0

/-- `get_seeder_count` (source lines 318-335).  The gateway's per-tracker
query is modelled by the function `trackers` from a torrent hash to the
stats the query would return; the `Bool` component of the result records
whether that query was invoked. -/
def get_seeder_count (trackers : String → List TrackerStat) (t : Torrent) :
    Int × Bool :=
  let tracker_seeds := t.num_complete
  let connected_seeds := t.num_seeds
  if tracker_seeds > 0 then
    (tracker_seeds, false)
  else if connected_seeds > 0 then
    (connected_seeds + our_contribution t, false)
  else
    let max_seeds := max_seeds_loop (trackers t.hash)
    (if max_seeds > 0 then max_seeds else our_contribution t, true)

/-! ## StateManager -/

/-- One value of the persisted `state["torrents"]` dictionary, as written by
`StateManager.update_torrent` (lines 133-140). -/
structure ScheduleEntry where
  name : String
  last_checked : ℚ
  last_seeder_count : Int
  last_classification : String
deriving DecidableEq

/-- The `state["torrents"]` dictionary: an insertion-ordered association
list from torrent hash to entry. -/
abbrev Store := List (String × ScheduleEntry)

/-- Dictionary lookup (`self.state["torrents"].get(h)`). -/
def getEntry : Store → String → Option ScheduleEntry
  | [], _ => none
  | (k, v) :: rest, h => if k = h then some v else getEntry rest h

/-- Dictionary assignment `self.state["torrents"][h] = e`: replace the
existing key in place, or append a new key. -/
def setEntry : Store → String → ScheduleEntry → Store
  | [], h, e => [(h, e)]
  | (k, v) :: rest, h, e =>
    if k = h then (h, e) :: rest else (k, v) :: setEntry rest h e

/-- `StateManager.get_last_checked` (lines 119-121). -/
def get_last_checked (s : Store) (h : String) : Option ℚ :=
  (getEntry s h).map ScheduleEntry.last_checked

/-- `StateManager.needs_check` (lines 123-131): true when the torrent was
never checked, otherwise `datetime.now() >= last_checked +
timedelta(days=interval_days)`. -/
def needs_check (s : Store) (h : String) (interval_days now : ℚ) : Bool :=
  match get_last_checked s h with
  | none => true
  | some last_checked => decide (last_checked + interval_days ≤ now)

/-- `StateManager.update_torrent` (lines 133-140). -/
def update_torrent (s : Store) (h name : String) (now : ℚ)
    (seeder_count : Int) (classification : String) : Store :=
  setEntry s h
    { name := name, last_checked := now, last_seeder_count := seeder_count
      last_classification := classification }

/-- `del self.state["torrents"][h]` on the association list. -/
def eraseKey (s : Store) (h : String) : Store :=
  s.filter (fun p => decide (p.1 ≠ h))

/-- `StateManager.cleanup_removed_torrents` (lines 142-149): collect the
keys absent from `current_hashes`, delete each, log the count.  The Python
function has no `return` statement, so its return value is `None`, modelled
as the second component `(none : Option Nat)`. -/
def cleanup_removed_torrents (s : Store) (current_hashes : List String) :
    Store × Option Nat :=
  let removed := (s.map Prod.fst).filter (fun h => decide (h ∉ current_hashes))
  (removed.foldl eraseKey s, none)

/-- `StateManager.get_stats` (lines 151-157), read as a function from a tier
name to its count: the number of entries whose `last_classification` equals
that tier (the Python dict starts every standard tier at 0 and increments
per entry). -/
def get_stats (s : Store) (tier : String) : Nat :=
  (s.filter (fun p => decide (p.2.last_classification = tier))).length

/-! ## QBittorrentAPI: the authenticated HTTP gateway

Each method's raw HTTP interactions are explicit arguments.  `HttpResult.exn`
stands for a raised `requests.exceptions.RequestException` (which the source
catches); for the GET endpoints the payload of `.ok` is the decoded JSON
after `raise_for_status`, so `.exn` also covers an error status code and a
decoding failure.  For the POST endpoints the payload of `.ok` is the
response status code.  Each method returns the updated value of
`self._authenticated` together with its Python return value. -/

/-- Outcome of one `requests` call. -/
inductive HttpResult (α : Type) where
  | ok (val : α)
  | exn
deriving DecidableEq

/-- `QBittorrentAPI.login` (lines 170-187): the call's `.ok` payload is
`response.text`; success is exactly the literal `"Ok."`. -/
def api_login (resp : HttpResult String) (auth : Bool) : Bool × Bool :=
  match resp with
  | .ok text => if text = "Ok." then (true, true) else (auth, false)
  | .exn => (auth, false)

/-- The prologue shared by every other method:
`if not self._authenticated: if not self.login(): return <default>`. -/
def ensure_auth (loginResp : HttpResult String) (auth : Bool) : Bool × Bool :=
  if auth then (auth, true) else api_login loginResp auth

/-- `QBittorrentAPI.get_torrents` (lines 189-205); on a failed request the
session is marked unauthenticated and `[]` is returned. -/
def api_get_torrents (loginResp : HttpResult String)
    (resp : HttpResult (List Torrent)) (auth : Bool) : Bool × List Torrent :=
  let a := ensure_auth loginResp auth
  if a.2 = false then (a.1, [])
  else
    match resp with
    | .ok ts => (a.1, ts)
    | .exn => (false, [])

/-- `QBittorrentAPI.get_torrent_trackers` (lines 207-223); failure yields
`[]` (and, unlike `get_torrents`, does not reset the session flag). -/
def api_get_torrent_trackers (loginResp : HttpResult String)
    (resp : HttpResult (List TrackerStat)) (auth : Bool) :
    Bool × List TrackerStat :=
  let a := ensure_auth loginResp auth
  if a.2 = false then (a.1, [])
  else
    match resp with
    | .ok ts => (a.1, ts)
    | .exn => (a.1, [])

/-- `QBittorrentAPI.resume_torrent` (lines 225-240): success is status 200,
any exception yields `False`. -/
def api_resume_torrent (loginResp : HttpResult String)
    (resp : HttpResult Int) (auth : Bool) : Bool × Bool :=
  let a := ensure_auth loginResp auth
  if a.2 = false then (a.1, false)
  else
    match resp with
    | .ok code => (a.1, decide (code = 200))
    | .exn => (a.1, false)

/-- `QBittorrentAPI.set_top_priority` (lines 242-257). -/
def api_set_top_priority (loginResp : HttpResult String)
    (resp : HttpResult Int) (auth : Bool) : Bool × Bool :=
  let a := ensure_auth loginResp auth
  if a.2 = false then (a.1, false)
  else
    match resp with
    | .ok code => (a.1, decide (code = 200))
    | .exn => (a.1, false)

/-- `QBittorrentAPI.set_rare_priority` (lines 259-284): `topPrio` (result
`r1`) then, if it returned 200, one `decreasePrio` (result `r2`); both live
in one `try`, so an exception at either point yields `False`. -/
def api_set_rare_priority (loginResp : HttpResult String)
    (r1 r2 : HttpResult Int) (auth : Bool) : Bool × Bool :=
  let a := ensure_auth loginResp auth
  if a.2 = false then (a.1, false)
  else
    match r1 with
    | .exn => (a.1, false)
    | .ok c1 =>
      if c1 ≠ 200 then (a.1, false)
      else
        match r2 with
        | .exn => (a.1, false)
        | .ok c2 => (a.1, decide (c2 = 200))

/-- `QBittorrentAPI.set_low_priority` (lines 286-315): `topPrio` (`r1`) then
two `decreasePrio` steps (`r2`, `r3`), each checked for status 200, all in
one `try`. -/
def api_set_low_priority (loginResp : HttpResult String)
    (r1 r2 r3 : HttpResult Int) (auth : Bool) : Bool × Bool :=
  let a := ensure_auth loginResp auth
  if a.2 = false then (a.1, false)
  else
    match r1 with
    | .exn => (a.1, false)
    | .ok c1 =>
      if c1 ≠ 200 then (a.1, false)
      else
        match r2 with
        | .exn => (a.1, false)
        | .ok c2 =>
          if c2 ≠ 200 then (a.1, false)
          else
            match r3 with
            | .exn => (a.1, false)
            | .ok c3 => (a.1, decide (c3 = 200))

/-! ## StateManager loading -/

/-- JSON values, for modelling `json.load`. -/
inductive Json where
  | obj (fields : List (String × Json))
  | arr (items : List Json)
  | str (s : String)
  | num (n : Int)
  | jbool (b : Bool)
  | null

/-- Field access on a JSON object's field list (Python `dict.get`). -/
def getField : List (String × Json) → String → Option Json
  | [], _ => none
  | (k, v) :: rest, h => if k = h then some v else getField rest h

/-- Whether Python `len` is defined on the value (`str`, `list`, `dict`);
on anything else `len` raises `TypeError`. -/
def hasLen : Json → Bool
  | .obj _ => true
  | .arr _ => true
  | .str _ => true
  | .jbool _ => false
  | .num _ => false
  | .null => false

/-- What `_load_state` can find: the file is missing (`exists()` false), the
`open` raises `IOError` (caught), or the file is read and `json.load` either
fails (`parsed = none`, a caught `JSONDecodeError`) or yields a JSON value. -/
inductive FileRead where
  | missing
  | ioError
  | content (parsed : Option Json)

/-- The empty store `{"torrents": {}, "last_full_run": None}` (line 107). -/
def emptyState : Json :=
  .obj [("torrents", .obj []), ("last_full_run", .null)]

/-- `StateManager._load_state` (lines 97-107).  The result is `Except`
because the body is not exception-free: inside the `try`, the log line
evaluates `len(data.get('torrents', {}))`; when the parsed document is not a
dict, `.get` raises `AttributeError`, and when it is a dict whose
`torrents` field has no `len`, `len` raises `TypeError` — neither is in the
caught `(json.JSONDecodeError, IOError)`, so both escape `_load_state`. -/
def load_state (file : FileRead) : Except String Json :=
  match file with
  | .missing => .ok emptyState
  | .ioError => .ok emptyState
  | .content none => .ok emptyState
  | .content (some (Json.obj fields)) =>
    if hasLen ((getField fields "torrents").getD (Json.obj [])) then
      .ok (Json.obj fields)
    else
      .error "TypeError"
  | .content (some _) => .error "AttributeError"

/-! ## run_check (lines 359-494)

The per-cycle gateway calls that mutate or query beyond the initial torrent
listing are recorded in an event trace.  `Ev.save` records a
`state_manager.save_state()` call.  During a cycle the session is already
authenticated (the cycle only proceeds past the `get_torrents` listing when
that call succeeded), so the action methods are abstracted by the success
oracle `ok : Ev → Bool` applied to the call they issue. -/

/-- Trace events of one check cycle. -/
inductive Ev where
  | getTrackers (h : String)
  | topPrio (h : String)
  | decreasePrio (h : String)
  | resume (h : String)
  | save
deriving DecidableEq

/-- Whether an event is a queue-priority call (`topPrio`/`decreasePrio`). -/
def Ev.isPrio : Ev → Bool
  | .topPrio _ => true
  | .decreasePrio _ => true
  | _ => false

/-- `set_top_priority` as issued during a cycle: one `topPrio` call. -/
def run_set_top_priority (ok : Ev → Bool) (h : String) : List Ev × Bool :=
  ([.topPrio h], ok (.topPrio h))

/-- `set_rare_priority` as issued during a cycle: `topPrio`, then
`decreasePrio` only if the first call succeeded. -/
def run_set_rare_priority (ok : Ev → Bool) (h : String) : List Ev × Bool :=
  if ok (.topPrio h) = false then ([.topPrio h], false)
  else ([.topPrio h, .decreasePrio h], ok (.decreasePrio h))

/-- `set_low_priority` as issued during a cycle: `topPrio`, then up to two
`decreasePrio` calls, stopping at the first failure. -/
def run_set_low_priority (ok : Ev → Bool) (h : String) : List Ev × Bool :=
  if ok (.topPrio h) = false then ([.topPrio h], false)
  else if ok (.decreasePrio h) = false then
    ([.topPrio h, .decreasePrio h], false)
  else
    ([.topPrio h, .decreasePrio h, .decreasePrio h], ok (.decreasePrio h))

/-- The `torrent_info` dict built at lines 419-425 (minus the display-only
formatted `size`). -/
structure TorrentInfo where
  hash : String
  name : String
  seeders : Int
  state : String
deriving DecidableEq

/-- The name truncation `name[:60] + '...' if len(name) > 60 else name`. -/
def truncName (name : String) : String :=
  if name.length > 60 then name.take 60 ++ "..." else name

/-- The `torrent_info` for a torrent, given the estimator's result. -/
def infoOf (trackers : String → List TrackerStat) (t : Torrent) :
    TorrentInfo :=
  { hash := t.hash, name := truncName t.name
    seeders := (get_seeder_count trackers t).1, state := t.state }

/-- Mutable state of the per-torrent checking loop (lines 398-440):
the schedule store, `checked_count`, the three tier buckets, and the trace
of gateway/save events issued so far. -/
structure LoopState where
  store : Store
  checked : Nat
  critical : List TorrentInfo
  rare : List TorrentInfo
  low : List TorrentInfo
  trace : List Ev
deriving DecidableEq

/-- One iteration of the checking loop body (lines 408-440): estimate,
classify, record, bucket by tier, checkpoint-save every 50 torrents. -/
def checkStep (cfg : Config) (trackers : String → List TrackerStat)
    (now : ℚ) (st : LoopState) (t : Torrent) : LoopState :=
  let sc := get_seeder_count trackers t
  let classification := classify_torrent cfg sc.1
  let store' := update_torrent st.store t.hash t.name now sc.1 classification
  let checked' := st.checked + 1
  let info := infoOf trackers t
  let buckets :=
    if classification = "CRITICAL" then (st.critical ++ [info], st.rare, st.low)
    else if classification = "RARE" then (st.critical, st.rare ++ [info], st.low)
    else if classification = "LOW" then (st.critical, st.rare, st.low ++ [info])
    else (st.critical, st.rare, st.low)
  let trace1 := st.trace ++ (if sc.2 then [Ev.getTrackers t.hash] else [])
  let trace2 := if checked' % 50 = 0 then trace1 ++ [Ev.save] else trace1
  { store := store', checked := checked'
    critical := buckets.1, rare := buckets.2.1, low := buckets.2.2
    trace := trace2 }

/-- The checking loop (lines 403-440): before each iteration the shutdown
flag is polled (`shutdown i` is its value when iteration `i` begins); a
raised flag breaks out, keeping everything already recorded. -/
def checkLoop (cfg : Config) (trackers : String → List TrackerStat)
    (now : ℚ) (shutdown : Nat → Bool) :
    List Torrent → Nat → LoopState → LoopState
  | [], _, st => st
  | t :: rest, i, st =>
    if shutdown i then st
    else checkLoop cfg trackers now shutdown rest (i + 1)
      (checkStep cfg trackers now st t)

/-- The list of paused/stopped states checked before a resume
(lines 473 and 482). -/
def pausedStates : List String :=
  ["pausedUP", "pausedDL", "stoppedUP", "stoppedDL"]

/-- One priority-application `for` loop (lines 456-467): issue the composite
priority operation for each bucketed torrent, count the successes. -/
def applyPhase (ok : Ev → Bool)
    (op : (Ev → Bool) → String → List Ev × Bool) :
    List TorrentInfo → List Ev × Nat
  | [] => ([], 0)
  | t :: rest =>
    let r := op ok t.hash
    let rec' := applyPhase ok op rest
    (r.1 ++ rec'.1, (if r.2 then 1 else 0) + rec'.2)

/-- One resume `for` loop (lines 472-476 / 481-485): resume each bucketed
torrent whose recorded state is paused/stopped, count the successes. -/
def resumePhase (ok : Ev → Bool) : List TorrentInfo → List Ev × Nat
  | [] => ([], 0)
  | t :: rest =>
    let rec' := resumePhase ok rest
    if t.state ∈ pausedStates then
      (Ev.resume t.hash :: rec'.1,
        (if ok (Ev.resume t.hash) then 1 else 0) + rec'.2)
    else rec'

/-- Result of one `run_check` cycle. -/
structure RunResult where
  store : Store
  trace : List Ev
  checked : Nat
  critical : List TorrentInfo
  rare : List TorrentInfo
  low : List TorrentInfo
  actions : Nat
  earlyReturn : Bool
deriving DecidableEq

/-- The action-and-persist tail of `run_check` (lines 448-494): the
priority-adjustment phase (LOW then RARE then CRITICAL, if enabled and some
bucket is non-empty), the RARE resume phase, the CRITICAL resume phase, and
the final `save_state`. -/
def afterLoop (cfg : Config) (ok : Ev → Bool) (st : LoopState) : RunResult :=
  let prio :=
    if cfg.SET_PRIORITIES = true ∧
        (st.critical ≠ [] ∨ st.rare ≠ [] ∨ st.low ≠ []) then
      let l := applyPhase ok run_set_low_priority st.low
      let r := applyPhase ok run_set_rare_priority st.rare
      let c := applyPhase ok run_set_top_priority st.critical
      (l.1 ++ r.1 ++ c.1, l.2 + r.2 + c.2)
    else ([], 0)
  let rr :=
    if cfg.RESUME_RARE = true ∧ st.rare ≠ [] then resumePhase ok st.rare
    else ([], 0)
  let rc :=
    if cfg.RESUME_CRITICAL = true ∧ st.critical ≠ [] then
      resumePhase ok st.critical
    else ([], 0)
  { store := st.store
    trace := st.trace ++ prio.1 ++ rr.1 ++ rc.1 ++ [Ev.save]
    checked := st.checked
    critical := st.critical, rare := st.rare, low := st.low
    actions := prio.2 + rr.2 + rc.2
    earlyReturn := false }

/-- `run_check` (lines 359-494).  `torrents` is the (already successful)
`get_torrents` listing; `trackers` answers the per-tracker queries;
`ok` decides the success of each action call; `shutdown` is the shutdown
flag polled at each loop iteration; `s0` the store on entry; `now` the
cycle's clock reading. -/
def run_check (cfg : Config) (trackers : String → List TrackerStat)
    (ok : Ev → Bool) (shutdown : Nat → Bool) (s0 : Store)
    (torrents : List Torrent) (now : ℚ) : RunResult :=
  if torrents = [] then
    { store := s0, trace := [], checked := 0
      critical := [], rare := [], low := [], actions := 0, earlyReturn := true }
  else
    let current_hashes := torrents.map Torrent.hash
    let s1 := (cleanup_removed_torrents s0 current_hashes).1
    let torrents_to_check :=
      torrents.filter (fun t => needs_check s1 t.hash cfg.CHECK_INTERVAL_DAYS now)
    if torrents_to_check = [] then
      { store := s1, trace := [], checked := 0
        critical := [], rare := [], low := [], actions := 0, earlyReturn := true }
    else
      afterLoop cfg ok
        (checkLoop cfg trackers now shutdown torrents_to_check 0
          { store := s1, checked := 0, critical := [], rare := [], low := []
            trace := [] })

/-- The schedule entry `update_torrent` writes for a torrent checked at
`now` (the estimator's count and its classification). -/
def newEntryOf (cfg : Config) (trackers : String → List TrackerStat)
    (now : ℚ) (t : Torrent) : ScheduleEntry :=
  { name := t.name, last_checked := now
    last_seeder_count := (get_seeder_count trackers t).1
    last_classification := classify_torrent cfg (get_seeder_count trackers t).1 }

/-- The bucket of a tier over a list of checked torrents: the `torrent_info`
records, in processing order, of those torrents the classifier puts in that
tier. -/
def bucketOf (cfg : Config) (trackers : String → List TrackerStat)
    (cls : String) (l : List Torrent) : List TorrentInfo :=
  (l.filter (fun t =>
    decide (classify_torrent cfg (get_seeder_count trackers t).1 = cls))).map
    (infoOf trackers)

/-- A sample schedule entry used in concrete witnesses. -/
def sampleEntry : ScheduleEntry :=
  { name := "n", last_checked := 0, last_seeder_count := 1
    last_classification := "CRITICAL" }

/-- A second sample schedule entry used in concrete witnesses. -/
def sampleEntry2 : ScheduleEntry :=
  { name := "m", last_checked := 0, last_seeder_count := 2
    last_classification := "RARE" }

/-- Scenario torrent A: paused, tracker-reported total 1 seeder. -/
def torrentA : Torrent :=
  { hash := "a", name := "A", state := "pausedUP"
    num_complete := 1, num_seeds := 0 }

/-- Scenario torrent B: paused, tracker-reported total 3 seeders. -/
def torrentB : Torrent :=
  { hash := "b", name := "B", state := "pausedUP"
    num_complete := 3, num_seeds := 0 }

/-- Scenario torrent C: paused, tracker-reported total 10 seeders. -/
def torrentC : Torrent :=
  { hash := "c", name := "C", state := "pausedUP"
    num_complete := 10, num_seeds := 0 }

/-- The end-to-end scenario cycle: torrents A/B/C (tracker-reported seeders
1/3/10, all paused), none previously checked, default thresholds, every
action toggle on, every gateway call succeeding, no shutdown. -/
def scenarioRun : RunResult :=
  run_check allOnConfig (fun _ => []) (fun _ => true) (fun _ => false) []
    [torrentA, torrentB, torrentC] 0

/-- Scenario torrent D: paused, tracker-reported total 2 seeders. -/
def torrentD : Torrent :=
  { hash := "d", name := "D", state := "pausedUP"
    num_complete := 2, num_seeds := 0 }

/-- Scenario torrent E: paused, tracker-reported total 4 seeders. -/
def torrentE : Torrent :=
  { hash := "e", name := "E", state := "pausedUP"
    num_complete := 4, num_seeds := 0 }

/-! ## Helper lemmas -/

/-- Unfolding `get_seeder_count` into its three branches. -/
theorem get_seeder_count_eq (trackers : String → List TrackerStat)
    (t : Torrent) :
    get_seeder_count trackers t =
      if t.num_complete > 0 then (t.num_complete, false)
      else if t.num_seeds > 0 then (t.num_seeds + our_contribution t, false)
      else
        (if max_seeds_loop (trackers t.hash) > 0 then
          max_seeds_loop (trackers t.hash)
        else our_contribution t, true) := rfl

theorem our_contribution_nonneg (t : Torrent) : 0 ≤ our_contribution t := by
  unfold our_contribution
  split <;> decide

theorem foldl_seed_max_init_le (l : List TrackerStat) (a : Int) :
    a ≤ l.foldl (fun m tr => if tr.num_seeds > m then tr.num_seeds else m) a := by
  induction l generalizing a with
  | nil => exact le_refl a
  | cons x xs ih =>
    simp only [List.foldl]
    by_cases h : x.num_seeds > a
    · rw [if_pos h]
      exact le_trans (le_of_lt h) (ih x.num_seeds)
    · rw [if_neg h]
      exact ih a

theorem foldl_seed_max_le (l : List TrackerStat) (a : Int) :
    ∀ tr ∈ l,
      tr.num_seeds ≤
        l.foldl (fun m tr => if tr.num_seeds > m then tr.num_seeds else m) a := by
  induction l generalizing a with
  | nil => intro tr htr; cases htr
  | cons x xs ih =>
    intro tr htr
    rcases List.mem_cons.mp htr with h | h
    · subst h
      simp only [List.foldl]
      by_cases hx : tr.num_seeds > a
      · rw [if_pos hx]
        exact foldl_seed_max_init_le xs tr.num_seeds
      · rw [if_neg hx]
        exact le_trans (le_of_not_lt hx) (foldl_seed_max_init_le xs a)
    · exact ih _ tr h

theorem foldl_seed_max_attained (l : List TrackerStat) (a : Int) :
    l.foldl (fun m tr => if tr.num_seeds > m then tr.num_seeds else m) a = a ∨
      ∃ tr ∈ l,
        l.foldl (fun m tr => if tr.num_seeds > m then tr.num_seeds else m) a =
          tr.num_seeds := by
  induction l generalizing a with
  | nil => exact Or.inl rfl
  | cons x xs ih =>
    simp only [List.foldl]
    by_cases hx : x.num_seeds > a
    · rw [if_pos hx]
      rcases ih x.num_seeds with h | ⟨tr, htr, h⟩
      · exact Or.inr ⟨x, List.mem_cons_self x xs, h⟩
      · exact Or.inr ⟨tr, List.mem_cons_of_mem x htr, h⟩
    · rw [if_neg hx]
      rcases ih a with h | ⟨tr, htr, h⟩
      · exact Or.inl h
      · exact Or.inr ⟨tr, List.mem_cons_of_mem x htr, h⟩

theorem max_seeds_loop_nonneg (l : List TrackerStat) :
    0 ≤ max_seeds_loop l :=
  foldl_seed_max_init_le l 0

theorem max_seeds_loop_le (l : List TrackerStat) :
    ∀ tr ∈ l, tr.num_seeds ≤ max_seeds_loop l :=
  foldl_seed_max_le l 0

theorem max_seeds_loop_attained (l : List TrackerStat) :
    max_seeds_loop l = 0 ∨ ∃ tr ∈ l, max_seeds_loop l = tr.num_seeds :=
  foldl_seed_max_attained l 0

/-- `getEntry` after a dict assignment. -/
theorem getEntry_setEntry (s : Store) (h : String) (e : ScheduleEntry)
    (h' : String) :
    getEntry (setEntry s h e) h' = if h = h' then some e else getEntry s h' := by
  induction s with
  | nil =>
    simp only [setEntry, getEntry]
  | cons p rest ih =>
    obtain ⟨k, v⟩ := p
    by_cases hk : k = h
    · subst hk
      simp only [setEntry, if_pos rfl, getEntry]
      by_cases hh : k = h'
      · rw [if_pos hh, if_pos hh]
      · rw [if_neg hh, if_neg hh, if_neg hh]
    · simp only [setEntry, if_neg hk, getEntry]
      by_cases hk' : k = h'
      · have hh : ¬ h = h' := fun hh => hk (hk'.trans hh.symm)
        rw [if_pos hk', if_neg hh, if_pos hk']
      · rw [if_neg hk', if_neg hk', ih]

/-- `getEntry` after deleting one key. -/
theorem getEntry_eraseKey (s : Store) (h h' : String) :
    getEntry (eraseKey s h) h' = if h' = h then none else getEntry s h' := by
  induction s with
  | nil =>
    simp [eraseKey, getEntry]
  | cons p rest ih =>
    obtain ⟨k, v⟩ := p
    simp only [eraseKey, List.filter_cons] at ih ⊢
    by_cases hk : k = h
    · rw [if_neg (by simp [hk])]
      rw [ih]
      by_cases hh : h' = h
      · rw [if_pos hh, if_pos hh]
      · rw [if_neg hh, if_neg hh]
        simp only [getEntry]
        rw [if_neg (fun hkh => hh (hkh.symm.trans hk))]
    · rw [if_pos (by simp [hk])]
      simp only [getEntry]
      by_cases hk' : k = h'
      · have hh : ¬ h' = h := fun hh => hk (hk'.trans hh)
        rw [if_pos hk', if_neg hh, if_pos hk']
      · rw [if_neg hk', ih]
        by_cases hh : h' = h
        · rw [if_pos hh, if_pos hh]
        · rw [if_neg hh, if_neg hh, if_neg hk']

/-- `getEntry` after deleting a list of keys. -/
theorem getEntry_foldl_eraseKey (R : List String) (s : Store) (h : String) :
    getEntry (R.foldl eraseKey s) h = if h ∈ R then none else getEntry s h := by
  induction R generalizing s with
  | nil => simp
  | cons r rs ih =>
    simp only [List.foldl]
    rw [ih]
    by_cases hm : h ∈ rs
    · simp [hm]
    · by_cases hr : h = r
      · subst hr
        simp [hm, getEntry_eraseKey]
      · simp [hm, hr, getEntry_eraseKey]

theorem getEntry_eq_none_of_not_mem (s : Store) (h : String)
    (hh : h ∉ s.map Prod.fst) : getEntry s h = none := by
  induction s with
  | nil => rfl
  | cons p rest ih =>
    simp only [List.map_cons, List.mem_cons] at hh
    push_neg at hh
    obtain ⟨k, v⟩ := p
    simp only [getEntry]
    rw [if_neg (fun hk => hh.1 hk.symm)]
    exact ih hh.2

/-- The key fact about `cleanup_removed_torrents`: afterwards a key resolves
to its previous entry when it is among the current hashes, and to nothing
otherwise. -/
theorem getEntry_cleanup (s : Store) (ids : List String) (h : String) :
    getEntry (cleanup_removed_torrents s ids).1 h =
      if h ∈ ids then getEntry s h else none := by
  unfold cleanup_removed_torrents
  rw [getEntry_foldl_eraseKey]
  by_cases hid : h ∈ ids
  · have hnr : h ∉ (s.map Prod.fst).filter (fun x => decide (x ∉ ids)) := by
      intro hmem
      rcases List.mem_filter.mp hmem with ⟨_, hdec⟩
      exact (of_decide_eq_true hdec) hid
    rw [if_neg hnr, if_pos hid]
  · rw [if_neg hid]
    by_cases hk : h ∈ s.map Prod.fst
    · have : h ∈ (s.map Prod.fst).filter (fun x => decide (x ∉ ids)) :=
        List.mem_filter.mpr ⟨hk, decide_eq_true hid⟩
      rw [if_pos this]
    · rw [getEntry_eq_none_of_not_mem s h hk]
      split <;> rfl

/-! ## Helper lemmas about the check cycle -/

theorem checkStep_store (cfg : Config) (trackers : String → List TrackerStat)
    (now : ℚ) (st : LoopState) (t : Torrent) :
    (checkStep cfg trackers now st t).store =
      setEntry st.store t.hash (newEntryOf cfg trackers now t) := rfl

theorem checkStep_checked (cfg : Config)
    (trackers : String → List TrackerStat) (now : ℚ) (st : LoopState)
    (t : Torrent) :
    (checkStep cfg trackers now st t).checked = st.checked + 1 := rfl

theorem checkStep_critical (cfg : Config)
    (trackers : String → List TrackerStat) (now : ℚ) (st : LoopState)
    (t : Torrent) :
    (checkStep cfg trackers now st t).critical =
      if classify_torrent cfg (get_seeder_count trackers t).1 = "CRITICAL" then
        st.critical ++ [infoOf trackers t]
      else st.critical := by
  simp only [checkStep]
  split_ifs <;> rfl

theorem checkStep_rare (cfg : Config)
    (trackers : String → List TrackerStat) (now : ℚ) (st : LoopState)
    (t : Torrent) :
    (checkStep cfg trackers now st t).rare =
      if classify_torrent cfg (get_seeder_count trackers t).1 = "RARE" then
        st.rare ++ [infoOf trackers t]
      else st.rare := by
  simp only [checkStep]
  by_cases h1 : classify_torrent cfg (get_seeder_count trackers t).1 =
      "CRITICAL"
  · have h2 : ¬ classify_torrent cfg (get_seeder_count trackers t).1 =
        "RARE" := by
      rw [h1]; decide
    rw [if_pos h1, if_neg h2]
  · rw [if_neg h1]
    by_cases h2 : classify_torrent cfg (get_seeder_count trackers t).1 =
        "RARE"
    · rw [if_pos h2, if_pos h2]
    · rw [if_neg h2, if_neg h2]
      by_cases h3 : classify_torrent cfg (get_seeder_count trackers t).1 =
          "LOW"
      · rw [if_pos h3]
      · rw [if_neg h3]

theorem checkStep_low (cfg : Config)
    (trackers : String → List TrackerStat) (now : ℚ) (st : LoopState)
    (t : Torrent) :
    (checkStep cfg trackers now st t).low =
      if classify_torrent cfg (get_seeder_count trackers t).1 = "LOW" then
        st.low ++ [infoOf trackers t]
      else st.low := by
  simp only [checkStep]
  by_cases h1 : classify_torrent cfg (get_seeder_count trackers t).1 =
      "CRITICAL"
  · have hn : ¬ classify_torrent cfg (get_seeder_count trackers t).1 =
        "LOW" := by
      rw [h1]; decide
    rw [if_pos h1, if_neg hn]
  · rw [if_neg h1]
    by_cases h2 : classify_torrent cfg (get_seeder_count trackers t).1 =
        "RARE"
    · have hn : ¬ classify_torrent cfg (get_seeder_count trackers t).1 =
          "LOW" := by
        rw [h2]; decide
      rw [if_pos h2, if_neg hn]
    · rw [if_neg h2]
      by_cases h3 : classify_torrent cfg (get_seeder_count trackers t).1 =
          "LOW"
      · rw [if_pos h3, if_pos h3]
      · rw [if_neg h3, if_neg h3]

theorem checkStep_trace_filter_isPrio (cfg : Config)
    (trackers : String → List TrackerStat) (now : ℚ) (st : LoopState)
    (t : Torrent) :
    (checkStep cfg trackers now st t).trace.filter Ev.isPrio =
      st.trace.filter Ev.isPrio := by
  simp only [checkStep]
  split_ifs <;> simp [List.filter_append, Ev.isPrio]

/-- With a shutdown flag that becomes (and stays) raised from iteration `k`
on, the checking loop behaves like the unshutdown loop on the first `k - i`
remaining torrents. -/
theorem checkLoop_shutdown_cut (cfg : Config)
    (trackers : String → List TrackerStat) (now : ℚ) (k : Nat)
    (shutdown : Nat → Bool) (hs : ∀ j, shutdown j = decide (k ≤ j)) :
    ∀ (l : List Torrent) (i : Nat) (st : LoopState),
      checkLoop cfg trackers now shutdown l i st =
        checkLoop cfg trackers now (fun _ => false) (l.take (k - i)) i st := by
  intro l
  induction l with
  | nil =>
    intro i st
    simp [checkLoop]
  | cons t rest ih =>
    intro i st
    by_cases hk : k ≤ i
    · rw [Nat.sub_eq_zero_of_le hk]
      simp [checkLoop, hs i, hk]
    · have h1 : k - i = (k - (i + 1)) + 1 := by omega
      have hsf : shutdown i = false := by
        rw [hs i]
        exact decide_eq_false hk
      rw [h1]
      simp only [List.take_succ_cons, checkLoop, hsf, Bool.false_eq_true,
        if_false, ih]

/-- The unshutdown checking loop: processed count, trace (restricted to
priority events), store lookups and the three tier buckets. -/
theorem checkLoop_noShutdown_fields (cfg : Config)
    (trackers : String → List TrackerStat) (now : ℚ) :
    ∀ (l : List Torrent) (i : Nat) (st : LoopState),
      (checkLoop cfg trackers now (fun _ => false) l i st).checked =
          st.checked + l.length ∧
      (checkLoop cfg trackers now (fun _ => false) l i st).trace.filter
          Ev.isPrio = st.trace.filter Ev.isPrio ∧
      ((l.map Torrent.hash).Nodup → ∀ h : String,
        getEntry (checkLoop cfg trackers now (fun _ => false) l i st).store h =
          (match l.find? (fun t => decide (t.hash = h)) with
           | some t => some (newEntryOf cfg trackers now t)
           | none => getEntry st.store h)) ∧
      (checkLoop cfg trackers now (fun _ => false) l i st).critical =
          st.critical ++ bucketOf cfg trackers "CRITICAL" l ∧
      (checkLoop cfg trackers now (fun _ => false) l i st).rare =
          st.rare ++ bucketOf cfg trackers "RARE" l ∧
      (checkLoop cfg trackers now (fun _ => false) l i st).low =
          st.low ++ bucketOf cfg trackers "LOW" l := by
  intro l
  induction l with
  | nil =>
    intro i st
    simp [checkLoop, bucketOf]
  | cons t rest ih =>
    intro i st
    have hstep :
        checkLoop cfg trackers now (fun _ => false) (t :: rest) i st =
          checkLoop cfg trackers now (fun _ => false) rest (i + 1)
            (checkStep cfg trackers now st t) := by
      simp [checkLoop]
    obtain ⟨ih1, ih2, ih3, ih4, ih5, ih6⟩ :=
      ih (i + 1) (checkStep cfg trackers now st t)
    refine ⟨?_, ?_, ?_, ?_, ?_, ?_⟩
    · rw [hstep, ih1, checkStep_checked]
      simp only [List.length_cons]
      omega
    · rw [hstep, ih2, checkStep_trace_filter_isPrio]
    · intro hnd h
      simp only [List.map_cons, List.nodup_cons] at hnd
      rw [hstep, ih3 hnd.2 h]
      by_cases hh : t.hash = h
      · rcases hfind : rest.find? (fun t' => decide (t'.hash = h)) with _ | t'
        · simp only [hfind]
          rw [List.find?_cons_of_pos _ (by simp [hh])]
          rw [checkStep_store, getEntry_setEntry, if_pos hh]
        · exfalso
          have hmem := List.mem_of_find?_eq_some hfind
          have hpred := List.find?_some hfind
          simp only [decide_eq_true_eq] at hpred
          exact hnd.1 (List.mem_map.mpr ⟨t', hmem, hpred.trans hh.symm⟩)
      · rw [List.find?_cons_of_neg _ (by simp [hh])]
        rcases hfind : rest.find? (fun t' => decide (t'.hash = h)) with _ | t'
        · simp only [hfind]
          rw [checkStep_store, getEntry_setEntry, if_neg hh]
        · simp only [hfind]
    · rw [hstep, ih4, checkStep_critical]
      simp only [bucketOf, List.filter_cons]
      by_cases hc : classify_torrent cfg (get_seeder_count trackers t).1 =
          "CRITICAL"
      · rw [if_pos hc, if_pos (by simp [hc])]
        simp
      · rw [if_neg hc, if_neg (by simp [hc])]
    · rw [hstep, ih5, checkStep_rare]
      simp only [bucketOf, List.filter_cons]
      by_cases hc : classify_torrent cfg (get_seeder_count trackers t).1 =
          "RARE"
      · rw [if_pos hc, if_pos (by simp [hc])]
        simp
      · rw [if_neg hc, if_neg (by simp [hc])]
    · rw [hstep, ih6, checkStep_low]
      simp only [bucketOf, List.filter_cons]
      by_cases hc : classify_torrent cfg (get_seeder_count trackers t).1 =
          "LOW"
      · rw [if_pos hc, if_pos (by simp [hc])]
        simp
      · rw [if_neg hc, if_neg (by simp [hc])]

/-- For any shutdown flag, the checking loop issues no priority calls. -/
theorem checkLoop_trace_filter_isPrio (cfg : Config)
    (trackers : String → List TrackerStat) (now : ℚ)
    (shutdown : Nat → Bool) :
    ∀ (l : List Torrent) (i : Nat) (st : LoopState),
      (checkLoop cfg trackers now shutdown l i st).trace.filter Ev.isPrio =
        st.trace.filter Ev.isPrio := by
  intro l
  induction l with
  | nil =>
    intro i st
    rfl
  | cons t rest ih =>
    intro i st
    simp only [checkLoop]
    by_cases hsd : shutdown i = true
    · rw [if_pos hsd]
    · rw [if_neg hsd, ih, checkStep_trace_filter_isPrio]

/-- In a list of torrents with pairwise-distinct hashes, the first torrent
found with a given member's hash is that member. -/
theorem find?_hash_of_mem_nodup :
    ∀ (l : List Torrent), (l.map Torrent.hash).Nodup →
      ∀ t ∈ l, l.find? (fun t' => decide (t'.hash = t.hash)) = some t := by
  intro l
  induction l with
  | nil =>
    intro _ t ht
    cases ht
  | cons x xs ih =>
    intro hnd t ht
    simp only [List.map_cons, List.nodup_cons] at hnd
    by_cases hx : x.hash = t.hash
    · rw [List.find?_cons_of_pos _ (by simp [hx])]
      rcases List.mem_cons.mp ht with h | h
      · rw [h]
      · exfalso
        exact hnd.1 (hx ▸ List.mem_map_of_mem Torrent.hash h)
    · rw [List.find?_cons_of_neg _ (by simp [hx])]
      rcases List.mem_cons.mp ht with h | h
      · exact absurd (by rw [h] : x.hash = t.hash) hx
      · exact ih hnd.2 t h

theorem find?_hash_eq_none_of_not_mem (l : List Torrent) (h : String)
    (hh : h ∉ l.map Torrent.hash) :
    l.find? (fun t' => decide (t'.hash = h)) = none := by
  rw [List.find?_eq_none]
  intro t ht
  simp only [decide_eq_true_eq]
  intro he
  exact hh (he ▸ List.mem_map_of_mem Torrent.hash ht)

/-- The trace of the LOW-priority application loop when every call
succeeds. -/
theorem applyPhase_low_trace (ok : Ev → Bool) (hok : ∀ e, ok e = true) :
    ∀ l : List TorrentInfo,
      (applyPhase ok run_set_low_priority l).1 =
        l.flatMap (fun t =>
          [Ev.topPrio t.hash, Ev.decreasePrio t.hash, Ev.decreasePrio t.hash]) := by
  intro l
  induction l with
  | nil => rfl
  | cons t rest ih =>
    simp only [applyPhase, run_set_low_priority, hok, List.flatMap_cons, ih]
    simp

/-- The trace of the RARE-priority application loop when every call
succeeds. -/
theorem applyPhase_rare_trace (ok : Ev → Bool) (hok : ∀ e, ok e = true) :
    ∀ l : List TorrentInfo,
      (applyPhase ok run_set_rare_priority l).1 =
        l.flatMap (fun t => [Ev.topPrio t.hash, Ev.decreasePrio t.hash]) := by
  intro l
  induction l with
  | nil => rfl
  | cons t rest ih =>
    simp only [applyPhase, run_set_rare_priority, hok, List.flatMap_cons, ih]
    simp

/-- The trace of the CRITICAL-priority application loop. -/
theorem applyPhase_top_trace (ok : Ev → Bool) :
    ∀ l : List TorrentInfo,
      (applyPhase ok run_set_top_priority l).1 =
        l.map (fun t => Ev.topPrio t.hash) := by
  intro l
  induction l with
  | nil => rfl
  | cons t rest ih =>
    simp only [applyPhase, run_set_top_priority, List.map_cons, ih]
    rfl

/-- The trace of a resume loop: one resume call per bucketed torrent whose
recorded state is paused/stopped. -/
theorem resumePhase_trace (ok : Ev → Bool) :
    ∀ l : List TorrentInfo,
      (resumePhase ok l).1 =
        (l.filter (fun t => decide (t.state ∈ pausedStates))).map
          (fun t => Ev.resume t.hash) := by
  intro l
  induction l with
  | nil => rfl
  | cons t rest ih =>
    simp only [resumePhase, List.filter_cons]
    by_cases hp : t.state ∈ pausedStates
    · simp [hp, ih]
    · simp [hp, ih]

theorem filter_isPrio_low_pattern (l : List TorrentInfo) :
    (l.flatMap (fun t =>
      [Ev.topPrio t.hash, Ev.decreasePrio t.hash,
        Ev.decreasePrio t.hash])).filter Ev.isPrio =
      l.flatMap (fun t =>
        [Ev.topPrio t.hash, Ev.decreasePrio t.hash, Ev.decreasePrio t.hash]) := by
  induction l with
  | nil => rfl
  | cons t rest ih => simp [List.flatMap_cons, Ev.isPrio, ih]

theorem filter_isPrio_rare_pattern (l : List TorrentInfo) :
    (l.flatMap (fun t =>
      [Ev.topPrio t.hash, Ev.decreasePrio t.hash])).filter Ev.isPrio =
      l.flatMap (fun t => [Ev.topPrio t.hash, Ev.decreasePrio t.hash]) := by
  induction l with
  | nil => rfl
  | cons t rest ih => simp [List.flatMap_cons, Ev.isPrio, ih]

theorem filter_isPrio_top_pattern (l : List TorrentInfo) :
    (l.map (fun t => Ev.topPrio t.hash)).filter Ev.isPrio =
      l.map (fun t => Ev.topPrio t.hash) := by
  induction l with
  | nil => rfl
  | cons t rest ih => simp [Ev.isPrio, ih]

theorem filter_isPrio_resume_map (l : List TorrentInfo) :
    ((l.filter (fun t => decide (t.state ∈ pausedStates))).map
      (fun t => Ev.resume t.hash)).filter Ev.isPrio = [] := by
  induction l with
  | nil => rfl
  | cons t rest ih =>
    simp only [List.filter_cons]
    by_cases hp : t.state ∈ pausedStates
    · rw [if_pos (by simp [hp])]
      simp [Ev.isPrio, ih]
    · rw [if_neg (by simp [hp])]
      exact ih

theorem afterLoop_store (cfg : Config) (ok : Ev → Bool) (st : LoopState) :
    (afterLoop cfg ok st).store = st.store := rfl

theorem afterLoop_checked (cfg : Config) (ok : Ev → Bool) (st : LoopState) :
    (afterLoop cfg ok st).checked = st.checked := rfl

theorem afterLoop_critical (cfg : Config) (ok : Ev → Bool) (st : LoopState) :
    (afterLoop cfg ok st).critical = st.critical := rfl

theorem afterLoop_rare (cfg : Config) (ok : Ev → Bool) (st : LoopState) :
    (afterLoop cfg ok st).rare = st.rare := rfl

theorem afterLoop_low (cfg : Config) (ok : Ev → Bool) (st : LoopState) :
    (afterLoop cfg ok st).low = st.low := rfl

theorem afterLoop_trace (cfg : Config) (ok : Ev → Bool) (st : LoopState) :
    (afterLoop cfg ok st).trace =
      st.trace ++
      (if cfg.SET_PRIORITIES = true ∧
          (st.critical ≠ [] ∨ st.rare ≠ [] ∨ st.low ≠ []) then
        (applyPhase ok run_set_low_priority st.low).1 ++
        (applyPhase ok run_set_rare_priority st.rare).1 ++
        (applyPhase ok run_set_top_priority st.critical).1
      else []) ++
      (if cfg.RESUME_RARE = true ∧ st.rare ≠ [] then
        (resumePhase ok st.rare).1
      else []) ++
      (if cfg.RESUME_CRITICAL = true ∧ st.critical ≠ [] then
        (resumePhase ok st.critical).1
      else []) ++
      [Ev.save] := by
  simp only [afterLoop]
  split_ifs <;> rfl

/-- Outside the two early-return paths, `run_check` is the checking loop on
the due torrents followed by the action-and-persist tail. -/
theorem run_check_nonEarly (cfg : Config)
    (trackers : String → List TrackerStat) (ok : Ev → Bool)
    (shutdown : Nat → Bool) (s0 : Store) (torrents : List Torrent) (now : ℚ)
    (hne : torrents ≠ [])
    (hdue : torrents.filter (fun t =>
      needs_check (cleanup_removed_torrents s0 (torrents.map Torrent.hash)).1
        t.hash cfg.CHECK_INTERVAL_DAYS now) ≠ []) :
    run_check cfg trackers ok shutdown s0 torrents now =
      afterLoop cfg ok
        (checkLoop cfg trackers now shutdown
          (torrents.filter (fun t =>
            needs_check
              (cleanup_removed_torrents s0 (torrents.map Torrent.hash)).1
              t.hash cfg.CHECK_INTERVAL_DAYS now)) 0
          { store := (cleanup_removed_torrents s0 (torrents.map Torrent.hash)).1
            checked := 0, critical := [], rare := [], low := []
            trace := [] }) := by
  simp only [run_check]
  rw [if_neg hne, if_neg hdue]

theorem trace_getLast_save (l : List Ev) :
    (l ++ [Ev.save]).getLast? = some Ev.save :=
  List.getLast?_concat l

theorem filter_isPrio_resume_if (c : Prop) [Decidable c] (ok : Ev → Bool)
    (l : List TorrentInfo) :
    (if c then (resumePhase ok l).1 else []).filter Ev.isPrio = [] := by
  split_ifs
  · rw [resumePhase_trace]
    exact filter_isPrio_resume_map l
  · rfl

/-! ## Claim theorems: classifier, estimator, schedule store, gateway -/

/-- C1: For every threshold configuration and every seeder count the
classifier returns one of CRITICAL, RARE, LOW, HEALTHY (never UNKNOWN, and
it is a total pure function); with the default thresholds 1/2/5 it maps
0 and 1 to CRITICAL, 2 to RARE, 5 to LOW and 6 to HEALTHY. -/
theorem classify_torrent_total_and_defaults :
    (∀ (cfg : Config) (c : Int),
      classify_torrent cfg c ∈ (["CRITICAL", "RARE", "LOW", "HEALTHY"] : List String)) ∧
    classify_torrent defaultConfig 0 = "CRITICAL" ∧
    classify_torrent defaultConfig 1 = "CRITICAL" ∧
    classify_torrent defaultConfig 2 = "RARE" ∧
    classify_torrent defaultConfig 5 = "LOW" ∧
    classify_torrent defaultConfig 6 = "HEALTHY" := by
  refine ⟨?_, by decide, by decide, by decide, by decide, by decide⟩
  intro cfg c
  unfold classify_torrent
  split_ifs <;> simp

/-- C2: `get_seeder_count` follows the fallback chain: a positive
tracker-reported total is returned as-is without querying per-tracker stats;
otherwise a positive connected-seeder count is returned plus the
self-contribution adjustment, again without the per-tracker query; otherwise
the per-tracker query is made and the maximum reported per-tracker count is
returned (an upper bound, attained whenever some tracker reports a positive
count), falling back to 0 plus the self-contribution when no tracker reports
a positive count.  The result is always non-negative. -/
theorem get_seeder_count_fallback_chain
    (trackers : String → List TrackerStat) (t : Torrent) :
    (t.num_complete > 0 →
      get_seeder_count trackers t = (t.num_complete, false)) ∧
    (t.num_complete ≤ 0 → t.num_seeds > 0 →
      get_seeder_count trackers t = (t.num_seeds + our_contribution t, false)) ∧
    (t.num_complete ≤ 0 → t.num_seeds ≤ 0 →
      (get_seeder_count trackers t).2 = true ∧
      (∀ tr ∈ trackers t.hash,
        tr.num_seeds ≤ (get_seeder_count trackers t).1) ∧
      ((∃ tr ∈ trackers t.hash, 0 < tr.num_seeds) →
        ∃ tr ∈ trackers t.hash,
          (get_seeder_count trackers t).1 = tr.num_seeds) ∧
      ((∀ tr ∈ trackers t.hash, tr.num_seeds ≤ 0) →
        (get_seeder_count trackers t).1 = our_contribution t)) ∧
    0 ≤ (get_seeder_count trackers t).1 := by
  rw [get_seeder_count_eq]
  refine ⟨?_, ?_, ?_, ?_⟩
  · intro h1
    rw [if_pos h1]
  · intro h1 h2
    rw [if_neg (not_lt.mpr h1), if_pos h2]
  · intro h1 h2
    rw [if_neg (not_lt.mpr h1), if_neg (not_lt.mpr h2)]
    refine ⟨rfl, ?_, ?_, ?_⟩
    · intro tr htr
      by_cases hM : max_seeds_loop (trackers t.hash) > 0
      · simpa [if_pos hM] using max_seeds_loop_le _ tr htr
      · have hle : tr.num_seeds ≤ 0 :=
          le_trans (max_seeds_loop_le _ tr htr) (not_lt.mp hM)
        simpa [if_neg hM] using le_trans hle (our_contribution_nonneg t)
    · rintro ⟨tr, htr, hpos⟩
      have hM : max_seeds_loop (trackers t.hash) > 0 :=
        lt_of_lt_of_le hpos (max_seeds_loop_le _ tr htr)
      rcases max_seeds_loop_attained (trackers t.hash) with h0 | ⟨tr', htr', h⟩
      · exact absurd h0 (ne_of_gt hM)
      · exact ⟨tr', htr', by simpa [if_pos hM] using h⟩
    · intro hall
      have hM : ¬ max_seeds_loop (trackers t.hash) > 0 := by
        rcases max_seeds_loop_attained (trackers t.hash) with h0 | ⟨tr', htr', h⟩
        · rw [h0]; exact lt_irrefl 0
        · rw [h]; exact not_lt.mpr (hall tr' htr')
      simp [if_neg hM]
  · split_ifs with h1 h2 hM
    · exact le_of_lt h1
    · have := our_contribution_nonneg t
      omega
    · exact le_of_lt hM
    · exact our_contribution_nonneg t

/-- C2 witness: a torrent whose tracker-reported total is 5 yields
estimate 5 with no per-tracker query. -/
theorem get_seeder_count_fallback_chain_witness :
    get_seeder_count (fun _ => [])
        { hash := "h", name := "n", state := "pausedDL"
          num_complete := 5, num_seeds := 0 } = (5, false) :=
  (get_seeder_count_fallback_chain (fun _ => [])
    { hash := "h", name := "n", state := "pausedDL"
      num_complete := 5, num_seeds := 0 }).1 (by decide)

/-- C5: `needs_check` is true when the store has no entry; for an entry last
checked at `T` with interval `D`, it is false strictly before `T + D` and
true at or from `T + D` (the boundary comparison is `>=`). -/
theorem needs_check_boundary (s : Store) (h : String) (D now : ℚ) :
    (getEntry s h = none → needs_check s h D now = true) ∧
    (∀ e : ScheduleEntry, getEntry s h = some e →
      ((now < e.last_checked + D → needs_check s h D now = false) ∧
       (e.last_checked + D ≤ now → needs_check s h D now = true))) := by
  constructor
  · intro hnone
    unfold needs_check get_last_checked
    rw [hnone]
    rfl
  · intro e he
    unfold needs_check get_last_checked
    rw [he]
    constructor
    · intro hlt
      simp only [Option.map_some']
      exact decide_eq_false (not_le.mpr hlt)
    · intro hge
      simp only [Option.map_some']
      exact decide_eq_true hge

/-- C5 witness: with one entry checked at time 0 and a 30-day interval,
`needs_check` is false at day 29, true at exactly day 30, and true for an
unknown id. -/
theorem needs_check_boundary_witness :
    needs_check [("x", sampleEntry)] "x" 30 29 = false ∧
    needs_check [("x", sampleEntry)] "x" 30 30 = true ∧
    needs_check [("x", sampleEntry)] "y" 30 0 = true := by
  refine ⟨?_, ?_, ?_⟩
  · exact ((needs_check_boundary _ "x" 30 29).2 sampleEntry (by decide)).1
      (by norm_num [sampleEntry])
  · exact ((needs_check_boundary _ "x" 30 30).2 sampleEntry (by decide)).2
      (by norm_num [sampleEntry])
  · exact (needs_check_boundary _ "y" 30 0).1 (by decide)

/-- C6 counterexample: on a store with entries `a`, `b` and current ids
`["a"]` the call removes exactly one entry, yet its Python return value is
`None`, not the removed count `1` the claim asserts. -/
theorem cleanup_returns_none_counterexample :
    (cleanup_removed_torrents
        [("a", sampleEntry), ("b", sampleEntry2)] ["a"]).1 =
      [("a", sampleEntry)] ∧
    (cleanup_removed_torrents
        [("a", sampleEntry), ("b", sampleEntry2)] ["a"]).2 ≠ some 1 := by
  refine ⟨by decide, ?_⟩
  intro hc
  exact Option.noConfusion hc

/-- C6 amended: `cleanup_removed_torrents(currentIds)` deletes exactly the
entries whose id is absent from `currentIds` — afterwards a lookup returns
the previous entry for ids in `currentIds` and nothing otherwise, so the key
set is the intersection of the previous keys with `currentIds` and surviving
entries are unchanged — and it returns `None` (the removed count is only
logged, not returned). -/
theorem cleanup_removed_torrents_spec (s : Store) (ids : List String) :
    (∀ h : String,
      getEntry (cleanup_removed_torrents s ids).1 h =
        if h ∈ ids then getEntry s h else none) ∧
    (cleanup_removed_torrents s ids).2 = none :=
  ⟨fun h => getEntry_cleanup s ids h, rfl⟩

/-- C8: every gateway operation returns its safe default (`False` for
login/resume/priority operations, `[]` for the list and tracker queries)
whenever the underlying HTTP call raises — the embedding is total, so no
exception escapes the gateway boundary. -/
theorem gateway_safe_defaults :
    (∀ auth : Bool, (api_login .exn auth).2 = false) ∧
    (∀ (auth : Bool) (lr : HttpResult String),
      (api_get_torrents lr .exn auth).2 = []) ∧
    (∀ (auth : Bool) (lr : HttpResult String),
      (api_get_torrent_trackers lr .exn auth).2 = []) ∧
    (∀ (auth : Bool) (lr : HttpResult String),
      (api_resume_torrent lr .exn auth).2 = false) ∧
    (∀ (auth : Bool) (lr : HttpResult String),
      (api_set_top_priority lr .exn auth).2 = false) ∧
    (∀ (auth : Bool) (lr : HttpResult String) (r2 : HttpResult Int),
      (api_set_rare_priority lr .exn r2 auth).2 = false) ∧
    (∀ (auth : Bool) (lr : HttpResult String) (r1 : HttpResult Int),
      (api_set_rare_priority lr r1 .exn auth).2 = false) ∧
    (∀ (auth : Bool) (lr : HttpResult String) (r2 r3 : HttpResult Int),
      (api_set_low_priority lr .exn r2 r3 auth).2 = false) ∧
    (∀ (auth : Bool) (lr : HttpResult String) (r1 r3 : HttpResult Int),
      (api_set_low_priority lr r1 .exn r3 auth).2 = false) ∧
    (∀ (auth : Bool) (lr : HttpResult String) (r1 r2 : HttpResult Int),
      (api_set_low_priority lr r1 r2 .exn auth).2 = false) := by
  refine ⟨fun auth => rfl, ?_, ?_, ?_, ?_, ?_, ?_, ?_, ?_, ?_⟩
  · intro auth lr
    cases auth <;> cases lr <;>
      simp [api_get_torrents, ensure_auth, api_login]
    all_goals (split_ifs <;> simp)
  · intro auth lr
    cases auth <;> cases lr <;>
      simp [api_get_torrent_trackers, ensure_auth, api_login]
  · intro auth lr
    cases auth <;> cases lr <;>
      simp [api_resume_torrent, ensure_auth, api_login]
  · intro auth lr
    cases auth <;> cases lr <;>
      simp [api_set_top_priority, ensure_auth, api_login]
  · intro auth lr r2
    cases auth <;> cases lr <;>
      simp [api_set_rare_priority, ensure_auth, api_login]
  · intro auth lr r1
    cases auth <;> cases lr <;> cases r1 <;>
      simp [api_set_rare_priority, ensure_auth, api_login]
  · intro auth lr r2 r3
    cases auth <;> cases lr <;>
      simp [api_set_low_priority, ensure_auth, api_login]
  · intro auth lr r1 r3
    cases auth <;> cases lr <;> cases r1 <;>
      simp [api_set_low_priority, ensure_auth, api_login]
  · intro auth lr r1 r2
    cases auth <;> cases lr <;> cases r1 <;> (try cases r2) <;>
      simp [api_set_low_priority, ensure_auth, api_login]

/-- C9 (code evaluation): a state file whose content parses to a JSON value
that is not an object — for example the valid JSON text `[]` — makes
`_load_state` raise `AttributeError` (the `data.get('torrents', {})` in its
log line), which is not among the caught exceptions, so loading fails the
process; a missing file, an unreadable file and an unparsable file all yield
the empty store as specified. -/
theorem load_state_raises_on_non_object :
    load_state (.content (some (Json.arr []))) = .error "AttributeError" ∧
    load_state .missing = .ok emptyState ∧
    load_state .ioError = .ok emptyState ∧
    load_state (.content none) = .ok emptyState :=
  ⟨rfl, rfl, rfl, rfl⟩

/-! ## Claim theorems: the check cycle -/

/-- C3: when priority application is enabled, every call succeeds and the
cycle bucketed at least one torrent into each of LOW, RARE and CRITICAL, the
priority calls issued are exactly: for each LOW torrent `topPrio` then
`decreasePrio` twice, then for each RARE torrent `topPrio` then
`decreasePrio` once, then for each CRITICAL torrent `topPrio` only — the
LOW-RARE-CRITICAL tier order is fixed by the code, for every input
(listing order only permutes torrents inside a bucket). -/
theorem priority_calls_fixed_tier_order
    (cfg : Config) (trackers : String → List TrackerStat) (ok : Ev → Bool)
    (shutdown : Nat → Bool) (s0 : Store) (torrents : List Torrent) (now : ℚ)
    (R : RunResult)
    (hR : R = run_check cfg trackers ok shutdown s0 torrents now)
    (hset : cfg.SET_PRIORITIES = true)
    (hok : ∀ e, ok e = true)
    (_hlow : R.low ≠ []) (_hrare : R.rare ≠ [])
    (hcrit : R.critical ≠ []) :
    R.trace.filter Ev.isPrio =
      (R.low.flatMap fun t =>
        [Ev.topPrio t.hash, Ev.decreasePrio t.hash, Ev.decreasePrio t.hash]) ++
      (R.rare.flatMap fun t => [Ev.topPrio t.hash, Ev.decreasePrio t.hash]) ++
      (R.critical.map fun t => Ev.topPrio t.hash) := by
  by_cases hne : torrents = []
  · exfalso
    apply hcrit
    rw [hR]
    simp only [run_check]
    rw [if_pos hne]
  by_cases hdue : torrents.filter (fun t =>
      needs_check (cleanup_removed_torrents s0 (torrents.map Torrent.hash)).1
        t.hash cfg.CHECK_INTERVAL_DAYS now) = []
  · exfalso
    apply hcrit
    rw [hR]
    simp only [run_check]
    rw [if_neg hne, if_pos hdue]
  rw [run_check_nonEarly cfg trackers ok shutdown s0 torrents now hne hdue]
    at hR
  rw [hR] at hcrit
  rw [afterLoop_critical] at hcrit
  rw [hR, afterLoop_trace, afterLoop_low, afterLoop_rare, afterLoop_critical]
  rw [if_pos ⟨hset, Or.inl hcrit⟩]
  simp only [List.filter_append]
  rw [checkLoop_trace_filter_isPrio cfg trackers now shutdown]
  rw [applyPhase_low_trace ok hok, applyPhase_rare_trace ok hok,
    applyPhase_top_trace ok]
  rw [filter_isPrio_low_pattern, filter_isPrio_rare_pattern,
    filter_isPrio_top_pattern]
  rw [filter_isPrio_resume_if, filter_isPrio_resume_if]
  simp [Ev.isPrio]

/-- C3 witness: three torrents with 1, 2 and 4 tracker-reported seeders land
in CRITICAL, RARE and LOW respectively, and the issued priority calls are
LOW's top+2 decreases, RARE's top+1 decrease, CRITICAL's top. -/
theorem priority_calls_fixed_tier_order_witness :
    (run_check defaultConfig (fun _ => []) (fun _ => true) (fun _ => false)
      [] [torrentA, torrentD, torrentE] 0).trace.filter Ev.isPrio =
      ((run_check defaultConfig (fun _ => []) (fun _ => true) (fun _ => false)
        [] [torrentA, torrentD, torrentE] 0).low.flatMap fun t =>
          [Ev.topPrio t.hash, Ev.decreasePrio t.hash,
            Ev.decreasePrio t.hash]) ++
      ((run_check defaultConfig (fun _ => []) (fun _ => true) (fun _ => false)
        [] [torrentA, torrentD, torrentE] 0).rare.flatMap fun t =>
          [Ev.topPrio t.hash, Ev.decreasePrio t.hash]) ++
      ((run_check defaultConfig (fun _ => []) (fun _ => true) (fun _ => false)
        [] [torrentA, torrentD, torrentE] 0).critical.map fun t =>
          Ev.topPrio t.hash) :=
  priority_calls_fixed_tier_order defaultConfig (fun _ => []) (fun _ => true)
    (fun _ => false) [] [torrentA, torrentD, torrentE] 0 _ rfl rfl
    (fun _ => rfl) (by decide) (by decide) (by decide)

/-- C4 counterexample: in the end-to-end scenario (torrents with 1/3/10
tracker-reported seeders, default thresholds 1/2/5), torrent B with 3
seeders is classified LOW (3 > RARE_SEEDERS = 2), not RARE as the claim
states, and the stats count for RARE is 0, not 1. -/
theorem end_to_end_scenario_counterexample :
    (getEntry scenarioRun.store "b").map ScheduleEntry.last_classification =
      some "LOW" ∧
    get_stats scenarioRun.store "RARE" = 0 := by
  constructor <;> decide

/-- C4 amended: in the end-to-end scenario, A (1 seeder) is CRITICAL, set
to top priority and resumed; B (3 seeders) is LOW, set to low priority
(top then two decreases) and not resumed; C (10 seeders) is HEALTHY with no
action and no resume attempt (no event mentions it); the final store has 3
entries with matching classifications and the stats are
CRITICAL 1, RARE 0, LOW 1, HEALTHY 1, UNKNOWN 0. -/
theorem end_to_end_scenario_amended :
    (getEntry scenarioRun.store "a").map ScheduleEntry.last_classification =
      some "CRITICAL" ∧
    (getEntry scenarioRun.store "b").map ScheduleEntry.last_classification =
      some "LOW" ∧
    (getEntry scenarioRun.store "c").map ScheduleEntry.last_classification =
      some "HEALTHY" ∧
    scenarioRun.store.length = 3 ∧
    scenarioRun.trace =
      [Ev.topPrio "b", Ev.decreasePrio "b", Ev.decreasePrio "b",
        Ev.topPrio "a", Ev.resume "a", Ev.save] ∧
    get_stats scenarioRun.store "CRITICAL" = 1 ∧
    get_stats scenarioRun.store "RARE" = 0 ∧
    get_stats scenarioRun.store "LOW" = 1 ∧
    get_stats scenarioRun.store "HEALTHY" = 1 ∧
    get_stats scenarioRun.store "UNKNOWN" = 0 := by
  refine ⟨?_, ?_, ?_, ?_, ?_, ?_, ?_, ?_, ?_, ?_⟩ <;> decide

/-- C7: when the shutdown flag goes up from iteration `k` on, exactly the
first `k` due torrents get new schedule entries, every other due torrent
keeps its prior entry (or stays absent), ids outside the current listing are
purged and everything else is untouched, and the cycle still reaches the
final `save_state` (the embedding is a total function, so the cycle
completes without error). -/
theorem shutdown_midloop_persists_prefix
    (cfg : Config) (trackers : String → List TrackerStat) (ok : Ev → Bool)
    (s0 : Store) (torrents : List Torrent) (now : ℚ) (k : Nat)
    (shutdown : Nat → Bool)
    (hs : ∀ j, shutdown j = decide (k ≤ j))
    (hnodup : (torrents.map Torrent.hash).Nodup)
    (hne : torrents ≠ [])
    (D : List Torrent)
    (hD : D = torrents.filter (fun t =>
      needs_check (cleanup_removed_torrents s0 (torrents.map Torrent.hash)).1
        t.hash cfg.CHECK_INTERVAL_DAYS now))
    (hdue : D ≠ [])
    (R : RunResult)
    (hR : R = run_check cfg trackers ok shutdown s0 torrents now) :
    R.checked = min k D.length ∧
    (∀ t ∈ D.take k,
      getEntry R.store t.hash = some (newEntryOf cfg trackers now t)) ∧
    (∀ t ∈ D.drop k, getEntry R.store t.hash = getEntry s0 t.hash) ∧
    (∀ h : String, h ∉ (D.take k).map Torrent.hash →
      getEntry R.store h =
        if h ∈ torrents.map Torrent.hash then getEntry s0 h else none) ∧
    R.trace.getLast? = some Ev.save := by
  have hDsub : D.Sublist torrents := hD ▸ List.filter_sublist torrents
  have hDnodup : (D.map Torrent.hash).Nodup :=
    hnodup.sublist (hDsub.map Torrent.hash)
  have htknodup : ((D.take k).map Torrent.hash).Nodup :=
    hDnodup.sublist ((List.take_sublist k D).map Torrent.hash)
  rw [run_check_nonEarly cfg trackers ok shutdown s0 torrents now hne
    (by rw [← hD]; exact hdue)] at hR
  rw [← hD] at hR
  rw [checkLoop_shutdown_cut cfg trackers now k shutdown hs D 0 _,
    Nat.sub_zero] at hR
  obtain ⟨h1, h2, h3, _, _, _⟩ :=
    checkLoop_noShutdown_fields cfg trackers now (D.take k) 0
      { store := (cleanup_removed_torrents s0 (torrents.map Torrent.hash)).1
        checked := 0, critical := [], rare := [], low := [], trace := [] }
  refine ⟨?_, ?_, ?_, ?_, ?_⟩
  · rw [hR, afterLoop_checked, h1]
    simp [List.length_take]
  · intro t ht
    rw [hR, afterLoop_store, h3 htknodup t.hash,
      find?_hash_of_mem_nodup (D.take k) htknodup t ht]
  · intro t ht
    have htD : t ∈ D := List.mem_of_mem_drop ht
    have htorr : t ∈ torrents := hDsub.mem htD
    have hnotin : t.hash ∉ (D.take k).map Torrent.hash := by
      intro hmem
      have hsplit : (D.take k).map Torrent.hash ++
          (D.drop k).map Torrent.hash = D.map Torrent.hash := by
        rw [← List.map_append, List.take_append_drop]
      have hdisj := (List.nodup_append.mp (hsplit ▸ hDnodup)).2.2
      exact hdisj hmem (List.mem_map_of_mem Torrent.hash ht)
    rw [hR, afterLoop_store, h3 htknodup t.hash,
      find?_hash_eq_none_of_not_mem _ _ hnotin]
    simp only [getEntry_cleanup]
    rw [if_pos (List.mem_map_of_mem Torrent.hash htorr)]
  · intro h hnotin
    rw [hR, afterLoop_store, h3 htknodup h,
      find?_hash_eq_none_of_not_mem _ _ hnotin]
    simp only [getEntry_cleanup]
  · rw [hR, afterLoop_trace]
    exact trace_getLast_save _

/-- C7 witness: three due torrents, shutdown raised from iteration 2 on —
exactly 2 torrents are checked. -/
theorem shutdown_midloop_persists_prefix_witness :
    (run_check defaultConfig (fun _ => []) (fun _ => true)
      (fun i => decide (2 ≤ i)) [] [torrentA, torrentB, torrentC] 0).checked
      = 2 := by
  have H := shutdown_midloop_persists_prefix defaultConfig (fun _ => [])
    (fun _ => true) [] [torrentA, torrentB, torrentC] 0 2
    (fun i => decide (2 ≤ i)) (fun _ => rfl) (by decide) (by decide)
    _ rfl (by decide) _ rfl
  exact H.1.trans (by decide)

/-- C10: a shutdown raised partway through the checking loop does not skip
the later phases: the buckets are those of the processed prefix of the due
list, the priority calls for those buckets are still issued in the fixed
LOW-RARE-CRITICAL order, every bucketed paused RARE/CRITICAL torrent still
gets its resume call, and the final `save_state` still happens. -/
theorem shutdown_midloop_still_applies_actions
    (cfg : Config) (trackers : String → List TrackerStat) (ok : Ev → Bool)
    (s0 : Store) (torrents : List Torrent) (now : ℚ) (k : Nat)
    (shutdown : Nat → Bool)
    (hs : ∀ j, shutdown j = decide (k ≤ j))
    (hset : cfg.SET_PRIORITIES = true)
    (hrr : cfg.RESUME_RARE = true)
    (hrc : cfg.RESUME_CRITICAL = true)
    (hok : ∀ e, ok e = true)
    (hne : torrents ≠ [])
    (D : List Torrent)
    (hD : D = torrents.filter (fun t =>
      needs_check (cleanup_removed_torrents s0 (torrents.map Torrent.hash)).1
        t.hash cfg.CHECK_INTERVAL_DAYS now))
    (hdue : D ≠ [])
    (R : RunResult)
    (hR : R = run_check cfg trackers ok shutdown s0 torrents now) :
    (R.critical = bucketOf cfg trackers "CRITICAL" (D.take k) ∧
     R.rare = bucketOf cfg trackers "RARE" (D.take k) ∧
     R.low = bucketOf cfg trackers "LOW" (D.take k)) ∧
    R.trace.filter Ev.isPrio =
      (R.low.flatMap fun t =>
        [Ev.topPrio t.hash, Ev.decreasePrio t.hash, Ev.decreasePrio t.hash]) ++
      (R.rare.flatMap fun t => [Ev.topPrio t.hash, Ev.decreasePrio t.hash]) ++
      (R.critical.map fun t => Ev.topPrio t.hash) ∧
    (∀ t ∈ R.rare, t.state ∈ pausedStates → Ev.resume t.hash ∈ R.trace) ∧
    (∀ t ∈ R.critical, t.state ∈ pausedStates → Ev.resume t.hash ∈ R.trace) ∧
    R.trace.getLast? = some Ev.save := by
  rw [run_check_nonEarly cfg trackers ok shutdown s0 torrents now hne
    (by rw [← hD]; exact hdue)] at hR
  rw [← hD] at hR
  rw [checkLoop_shutdown_cut cfg trackers now k shutdown hs D 0 _,
    Nat.sub_zero] at hR
  obtain ⟨_, h2, _, h4, h5, h6⟩ :=
    checkLoop_noShutdown_fields cfg trackers now (D.take k) 0
      { store := (cleanup_removed_torrents s0 (torrents.map Torrent.hash)).1
        checked := 0, critical := [], rare := [], low := [], trace := [] }
  subst hR
  set st := checkLoop cfg trackers now (fun _ => false) (D.take k) 0
    { store := (cleanup_removed_torrents s0 (torrents.map Torrent.hash)).1
      checked := 0, critical := [], rare := [], low := [], trace := [] }
    with hst
  have hcrit : (afterLoop cfg ok st).critical =
      bucketOf cfg trackers "CRITICAL" (D.take k) := by
    rw [afterLoop_critical, h4]
    rfl
  have hrare : (afterLoop cfg ok st).rare =
      bucketOf cfg trackers "RARE" (D.take k) := by
    rw [afterLoop_rare, h5]
    rfl
  have hlow : (afterLoop cfg ok st).low =
      bucketOf cfg trackers "LOW" (D.take k) := by
    rw [afterLoop_low, h6]
    rfl
  refine ⟨⟨hcrit, hrare, hlow⟩, ?_, ?_, ?_, ?_⟩
  · rw [afterLoop_trace, afterLoop_low, afterLoop_rare, afterLoop_critical]
    simp only [List.filter_append]
    rw [h2, filter_isPrio_resume_if, filter_isPrio_resume_if]
    by_cases hg : st.critical ≠ [] ∨ st.rare ≠ [] ∨ st.low ≠ []
    · rw [if_pos ⟨hset, hg⟩]
      simp only [List.filter_append]
      rw [applyPhase_low_trace ok hok, applyPhase_rare_trace ok hok,
        applyPhase_top_trace ok]
      rw [filter_isPrio_low_pattern, filter_isPrio_rare_pattern,
        filter_isPrio_top_pattern]
      simp [Ev.isPrio]
    · push_neg at hg
      rw [if_neg (fun hc =>
        hc.2.elim (fun h => h hg.1)
          (fun h => h.elim (fun h' => h' hg.2.1) (fun h' => h' hg.2.2)))]
      rw [hg.1, hg.2.1, hg.2.2]
      simp [Ev.isPrio]
  · intro t ht hp
    rw [afterLoop_rare] at ht
    rw [afterLoop_trace]
    have hne' : st.rare ≠ [] := List.ne_nil_of_mem ht
    have hif : (if cfg.RESUME_RARE = true ∧ st.rare ≠ [] then
        (resumePhase ok st.rare).1 else []) = (resumePhase ok st.rare).1 :=
      if_pos ⟨hrr, hne'⟩
    rw [hif]
    have hmem : Ev.resume t.hash ∈ (resumePhase ok st.rare).1 := by
      rw [resumePhase_trace]
      exact List.mem_map.mpr
        ⟨t, List.mem_filter.mpr ⟨ht, decide_eq_true hp⟩, rfl⟩
    exact List.mem_append_left _
      (List.mem_append_left _ (List.mem_append_right _ hmem))
  · intro t ht hp
    rw [afterLoop_critical] at ht
    rw [afterLoop_trace]
    have hne' : st.critical ≠ [] := List.ne_nil_of_mem ht
    have hif : (if cfg.RESUME_CRITICAL = true ∧ st.critical ≠ [] then
        (resumePhase ok st.critical).1 else []) =
        (resumePhase ok st.critical).1 :=
      if_pos ⟨hrc, hne'⟩
    rw [hif]
    have hmem : Ev.resume t.hash ∈ (resumePhase ok st.critical).1 := by
      rw [resumePhase_trace]
      exact List.mem_map.mpr
        ⟨t, List.mem_filter.mpr ⟨ht, decide_eq_true hp⟩, rfl⟩
    exact List.mem_append_left _ (List.mem_append_right _ hmem)
  · rw [afterLoop_trace]
    exact trace_getLast_save _

/-- C10 witness: with the shutdown flag raised from iteration 2 of 3 due
torrents, the final `save_state` still ends the cycle's event trace. -/
theorem shutdown_midloop_still_applies_actions_witness :
    (run_check allOnConfig (fun _ => []) (fun _ => true)
      (fun i => decide (2 ≤ i)) [] [torrentA, torrentB, torrentC]
      0).trace.getLast? = some Ev.save := by
  have H := shutdown_midloop_still_applies_actions allOnConfig (fun _ => [])
    (fun _ => true) [] [torrentA, torrentB, torrentC] 0 2
    (fun i => decide (2 ≤ i)) (fun _ => rfl) rfl rfl rfl (fun _ => rfl)
    (by decide) _ rfl (by decide) _ rfl
  exact H.2.2.2.2

end SHM
